import Mathlib

/-!
Verification of the XrdTls context factory (`src/XrdTls/XrdTlsContext.cc`).

The file shallowly embeds the constructor `XrdTlsContext::XrdTlsContext`, the
path validator `VerPaths`, the verification callback `VerCB`, the one-time
initializer `InitTLS`, and the accessors `Context`, `GetParams`, `x509Verify`
and `Clone`.  External collaborators (the OpenSSL library calls, the process
environment, and filesystem metadata) are modelled as explicit oracle
parameters, so every embedded operation is a pure, executable function.
-/

namespace XrdTlsModel

/-- A diagnostic record handed to the process-wide message sink
`XrdTlsGlobal::msgCB(component, message, isError)`. -/
structure Msg where
  tag : String
  msg : String
  isErr : Bool
  deriving DecidableEq, Repr

/-- Metadata of one filesystem entry as seen by a `stat`-equivalent call.
`mode` holds the nine permission bits (owner/group/other rwx). -/
structure FileMeta where
  isDir : Bool
  mode : Nat
  deriving DecidableEq, Repr

/-- Filesystem metadata oracle; `none` means the path does not exist. -/
def FS : Type := String → Option FileMeta

/-- The slice of the process environment the constructor reads via `getenv`.
`none` models an unset variable. -/
structure Env where
  x509CertDir : Option String
  x509CertFile : Option String
  x509UserProxy : Option String
  x509UserKey : Option String

/-- Modelled from the spec: the header `XrdTlsContext.hh` defining the bit
layout of the options word (`servr`, `logVF`, `vdept`, `vdepS`) is not under
src/.  Section 3 of the spec describes the word as a `server` bit, a
`logVerifyFailures` bit, and a multi-bit `verifyDepth` subfield, which we
model as a record. -/
structure Opts where
  server : Bool
  logVF : Bool
  vDepth : Nat
  deriving DecidableEq, Repr

/-- The `CTX_Params` value record embedded in every context:
`{cert, pkey, cadir, cafile, opts}` with empty strings for absent paths. -/
structure CTX_Params where
  cert : String
  pkey : String
  cadir : String
  cafile : String
  opts : Opts
  deriving DecidableEq, Repr

/-- Default-constructed `CTX_Params` (all paths empty, zero options word),
the state of the record before the constructor's parameter-capture step. -/
def parm0 : CTX_Params := ⟨"", "", "", "", ⟨false, false, 0⟩⟩

/-- Outcomes of the external OpenSSL calls made by the constructor.  Each
field records whether the corresponding library call succeeds; calls taking
paths receive them, mirroring the call sites in the source. -/
structure SSLLib where
  /-- `OPENSSL_THREADS` is defined, i.e. `XrdTlsContext::Init` returns 0. -/
  threads : Bool
  /-- `TLS_method()` / `SSLv23_method()` returns a non-null method. -/
  methodAvail : Bool
  /-- `SSL_CTX_new(meth)` returns a non-null context. -/
  allocOK : Bool
  /-- `SSL_CTX_load_verify_locations(ctx, caFile, caDir)` succeeds. -/
  loadVerifyOK : Option String → Option String → Bool
  /-- `SSL_CTX_set_cipher_list(ctx, ciphers)` succeeds. -/
  cipherOK : String → Bool
  /-- `SSL_CTX_use_certificate_file(ctx, cert, PEM) == 1`. -/
  certFileOK : String → Bool
  /-- `SSL_CTX_use_PrivateKey_file(ctx, key, PEM) == 1`. -/
  keyFileOK : String → Bool
  /-- `SSL_CTX_check_private_key(ctx) == 1`. -/
  keyMatchOK : Bool

/-- Verification mode applied with `SSL_CTX_set_verify`; `vUnset` means the
constructor failed before reaching that call. -/
inductive VerifyMode where
  | vUnset
  | vPeer
  | vNone
  deriving DecidableEq, Repr

/-- The peer-verification settings applied to the native context: the mode,
the depth passed to `SSL_CTX_set_verify_depth`, and whether the `VerCB`
callback pointer was installed (non-null third argument). -/
structure VerifySettings where
  mode : VerifyMode
  depth : Option Nat
  cb : Bool
  deriving DecidableEq, Repr

/-- Settings before `SSL_CTX_set_verify` is reached. -/
def vs0 : VerifySettings := ⟨.vUnset, none, false⟩

/-- Observable result of running the constructor: whether a native context
was committed (`ctx` models the `pImpl->ctx` pointer being non-null), the
embedded `CTX_Params`, the diagnostics emitted to the sink in order, and the
last verification settings applied. -/
structure BuildResult where
  ctx : Bool
  parm : CTX_Params
  msgs : List Msg
  vset : VerifySettings
  deriving DecidableEq, Repr

/-- The default cipher list for OpenSSL 1.0.2+ (file-local `sslCiphers`). -/
def sslCiphers : String :=
  "ECDHE-ECDSA-AES128-GCM-SHA256:" ++
  "ECDHE-RSA-AES128-GCM-SHA256:" ++
  "ECDHE-ECDSA-AES256-GCM-SHA384:" ++
  "ECDHE-RSA-AES256-GCM-SHA384:" ++
  "ECDHE-ECDSA-CHACHA20-POLY1305:" ++
  "ECDHE-RSA-CHACHA20-POLY1305:" ++
  "DHE-RSA-AES128-GCM-SHA256:" ++
  "DHE-RSA-AES256-GCM-SHA384"

/-- Message logged when `XrdTlsContext::Init` fails for lack of threads. -/
def threadsEmsg : String := "Installed OpenSSL lacks the required thread support!"

/-- Message logged when no CA material can be determined client-side; note
the source's `"Tls_Context"` tag and the `peer identify` wording. -/
def noCAMsg : String :=
  "Unable to determine the location of trusted CA certificates to verify " ++
  "peer identify; this is required!"

/-- Modelled from the spec: `XrdTls::Emsg` is not under src/.  Section 7's
propagation policy says every error is reported once via the diagnostic
sink, so `Emsg(tag, text)` is modelled as one sink record carrying the tag
and text given at the call site, marked as an error. -/
def EmsgRec (tag text : String) : Msg := ⟨tag, text, true⟩

/-! ## Path validator (`VerPaths`, source lines 191-245) -/

/-- Mask for a certificate file with a separate key:
`S_IRUSR | S_IWUSR | S_IRWXG | S_IROTH`. -/
def cert_mode : Nat := 0o400 ||| 0o200 ||| 0o070 ||| 0o004

/-- Mask for a private key (and for a cert+key bundle): `S_IRUSR | S_IWUSR`. -/
def pkey_mode : Nat := 0o400 ||| 0o200

/-- Mask for the CA directory:
`S_IRWXU | S_IRGRP | S_IXGRP | S_IROTH | S_IXOTH`. -/
def cadr_mode : Nat := 0o700 ||| 0o040 ||| 0o010 ||| 0o004 ||| 0o001

/-- Mask for the CA file: `S_IRUSR | S_IWUSR | S_IRWXG | S_IROTH`. -/
def cafl_mode : Nat := 0o400 ||| 0o200 ||| 0o070 ||| 0o004

/-- Modelled from the spec: `XrdOucUtils::ValPath` is not under src/.
Section 4.2: "An entry fails if it does not exist, is of the wrong kind, or
grants any permission beyond its mask."  Returns an error message exactly in
those cases, `none` when the path is acceptable. -/
def ValPath (fs : FS) (path : String) (allowed : Nat) (isDir : Bool) :
    Option String :=
  match fs path with
  | none => some "path not found"
  | some meta =>
      if meta.isDir != isDir then some "invalid path type"
      else if meta.mode &&& (511 ^^^ allowed) != 0 then some "path is too permissive"
      else none

/-- One entry of `VerPaths`: when the path is present, validate it against
its mask and kind and build the role-and-path error message. -/
def chkPath (fs : FS) (p : Option String) (allowed : Nat) (isDir : Bool)
    (role : String) : Option String :=
  match p with
  | none => none
  | some path =>
      match ValPath fs path allowed isDir with
      | none => none
      | some e => some (role ++ path ++ "; " ++ e)

/-- The path validator `VerPaths(cert, pkey, cadr, cafl, eMsg)`.  The source
returns `false` and fills `eMsg` on the first failing entry, in the order CA
directory, CA file, private key, certificate; we return `some eMsg` in that
case and `none` on success.  The certificate's mask is `cert_mode` when a
separate key was given and `pkey_mode` otherwise. -/
def VerPaths (fs : FS) (cert pkey cadr cafl : Option String) : Option String :=
  match chkPath fs cadr cadr_mode true "Unable to use CA cert directory " with
  | some m => some m
  | none =>
  match chkPath fs cafl cafl_mode false "Unable to use CA cert file " with
  | some m => some m
  | none =>
  match chkPath fs pkey pkey_mode false "Unable to use key file " with
  | some m => some m
  | none =>
  chkPath fs cert (if pkey.isSome then cert_mode else pkey_mode) false
    (if pkey.isSome then "Unable to use cert file " else "Unable to use cert+key file ")

/-! ## Verification callback (`VerCB`, source lines 253-275) -/

/-- The data `VerCB` reads from the `X509_STORE_CTX`: the current
certificate's subject and issuer one-line DNs, the error depth, and the
numeric error code. -/
structure StoreCtx where
  subjectDN : String
  issuerDN : String
  depth : Int
  errCode : Int
  deriving DecidableEq, Repr

/-- The verification callback `VerCB(aOK, x509P)`.  `es` models the external
`X509_verify_cert_error_string`.  Returns the unchanged verdict together
with the diagnostics emitted to `XrdTlsGlobal::msgCB`; note the source
passes `false` as the third sink argument at all three call sites. -/
def VerCB (es : Int → String) (aOK : Int) (x : StoreCtx) : Int × List Msg :=
  if aOK == 0 then
    (aOK,
      [⟨"Cert", "Cert verification failed for DN=" ++ x.subjectDN, false⟩,
       ⟨"Cert", "Failing cert issuer=" ++ x.issuerDN, false⟩,
       ⟨"Cert", "Error " ++ toString x.errCode ++ " at depth " ++ toString x.depth
                ++ " [" ++ es x.errCode ++ "]", false⟩])
  else (aOK, [])

/-! ## One-time initializer (`InitTLS`, source lines 139-170) -/

/-- The process-wide global state touched by `InitTLS`: the `initDone` flag,
how many times the SSL library setup sequence ran, whether the locking and
thread-id callbacks were installed, and the length of the allocated
`MutexVector` (0 when not allocated). -/
structure TlsGlobals where
  initDone : Bool
  libInitCount : Nat
  lockCB : Bool
  idCB : Bool
  mutexCount : Nat
  deriving DecidableEq, Repr

/-- Fresh process state: nothing initialized. -/
def g0 : TlsGlobals := ⟨false, 0, false, false, 0⟩

/-- Build-time library facts `InitTLS` depends on: whether
`XRDTLS_SET_CALLBACKS` is in force (OpenSSL < 1.1 with `OPENSSL_THREADS`),
and the value of `CRYPTO_num_locks()`. -/
structure LibVer where
  legacy : Bool
  numLocks : Nat
  deriving DecidableEq, Repr

/-- The one-time initializer `InitTLS()`: under the mutex, return at once if
`initDone` is set; otherwise set it, run the library setup sequence, and on
legacy versions allocate the mutex vector and install the locking callback
when `CRYPTO_num_locks() > 0`, plus the thread-id callback. -/
def InitTLS (v : LibVer) (g : TlsGlobals) : TlsGlobals :=
  if g.initDone then g
  else
    let g1 : TlsGlobals :=
      { g with initDone := true, libInitCount := g.libInitCount + 1 }
    if v.legacy then
      let g2 : TlsGlobals :=
        if v.numLocks > 0 then { g1 with mutexCount := v.numLocks, lockCB := true }
        else g1
      { g2 with idCB := true }
    else g1

/-! ## The constructor (`XrdTlsContext::XrdTlsContext`, source lines 284-467) -/

/-- Resolved CA directory after client-side defaulting (lines 332-335):
substituted from `X509_CERT_DIR` only when the server bit is clear and
neither CA path was supplied. -/
def caDirR (caDir0 caFile0 : Option String) (opts : Opts) (env : Env) :
    Option String :=
  if !opts.server && caDir0.isNone && caFile0.isNone then env.x509CertDir
  else caDir0

/-- Resolved CA file after client-side defaulting (lines 332-335). -/
def caFileR (caDir0 caFile0 : Option String) (opts : Opts) (env : Env) :
    Option String :=
  if !opts.server && caDir0.isNone && caFile0.isNone then env.x509CertFile
  else caFile0

/-- Resolved certificate path (line 343): defaulted from `X509_USER_PROXY`
when the server bit is clear and no cert was supplied. -/
def certR (cert0 : Option String) (opts : Opts) (env : Env) : Option String :=
  if !opts.server && cert0.isNone then env.x509UserProxy else cert0

/-- Resolved private-key path (line 344): defaulted from `X509_USER_KEY`
when the server bit is clear and no key was supplied. -/
def keyR (key0 : Option String) (opts : Opts) (env : Env) : Option String :=
  if !opts.server && key0.isNone then env.x509UserKey else key0

/-- Tail of the constructor from the cipher-list call on (lines 409-467):
set the cipher list, commit as-is for a certless client, otherwise load the
certificate and key (the cert path doubles as the key path when no key was
given) and cross-check them. -/
def loadCreds (parm : CTX_Params) (vs : VerifySettings)
    (cert key : Option String) (lib : SSLLib) : BuildResult :=
  if !lib.cipherOK sslCiphers then
    ⟨false, parm, [EmsgRec "TLS_Context" "Unable to set SSL cipher list."], vs⟩
  else
    match cert with
    | none => ⟨true, parm, [], vs⟩
    | some c =>
        let k := key.getD c
        if !lib.certFileOK c then
          ⟨false, parm,
            [EmsgRec "LS_Context" "Unable to create TLS context; certificate error."], vs⟩
        else if !lib.keyFileOK k then
          ⟨false, parm,
            [EmsgRec "TLS_Context" "Unable to create TLS context; private key error."], vs⟩
        else if !lib.keyMatchOK then
          ⟨false, parm,
            [EmsgRec "TLS_Context" "Unable to create TLS context; cert-key mismatch."], vs⟩
        else ⟨true, parm, [], vs⟩

/-- Constructor tail from method selection on (lines 363-467), after the
`CTX_Params` record has been captured: select the method, allocate the
native context, apply the verification policy (the verify depth is
`opts.verifyDepth` when nonzero, else 9; the peer mode with the `VerCB`
callback exactly when `logVF` is set; mode none without CA material), then
hand over to `loadCreds`. -/
def afterCapture (parm : CTX_Params) (cert key caDir caFile : Option String)
    (lib : SSLLib) : BuildResult :=
  if !lib.methodAvail then
    ⟨false, parm,
      [⟨"TLS_Context", "No negotiable TLS method available.", false⟩], vs0⟩
  else if !lib.allocOK then
    ⟨false, parm, [EmsgRec "TLS_Context" "Unable to allocate TLS context!"], vs0⟩
  else if caDir.isSome || caFile.isSome then
    if !lib.loadVerifyOK caFile caDir then
      ⟨false, parm,
        [EmsgRec "TLS_Context" "Unable to set the CA cert file or directory."], vs0⟩
    else
      loadCreds parm
        ⟨.vPeer, some (if parm.opts.vDepth != 0 then parm.opts.vDepth else 9),
         parm.opts.logVF⟩
        cert key lib
  else
    loadCreds parm ⟨.vNone, none, false⟩ cert key lib

/-- The constructor `XrdTlsContext(cert0, key0, caDir0, caFile0, opts)` as a
function of the environment, filesystem, library oracle, and the global
`initDone` flag observed at entry.  Mirrors the source order: init gate,
client-side defaulting, path validation, parameter capture, then
`afterCapture`.  The scope guard (`ctx_tracker`) is reflected in
`ctx = false` on every failure path. -/
def build (cert0 key0 caDir0 caFile0 : Option String) (opts : Opts)
    (env : Env) (fs : FS) (lib : SSLLib) (done : Bool) : BuildResult :=
  if !done && !lib.threads then
    ⟨false, parm0, [⟨"TLS_Context", threadsEmsg, false⟩], vs0⟩
  else
    let caDir := caDirR caDir0 caFile0 opts env
    let caFile := caFileR caDir0 caFile0 opts env
    if !opts.server && caDir.isNone && caFile.isNone then
      ⟨false, parm0, [⟨"Tls_Context", noCAMsg, false⟩], vs0⟩
    else
      let cert := certR cert0 opts env
      let key := keyR key0 opts env
      match VerPaths fs cert key caDir caFile with
      | some eText => ⟨false, parm0, [⟨"TLS_Context", eText, false⟩], vs0⟩
      | none =>
          afterCapture ⟨cert.getD "", key.getD "", caDir.getD "", caFile.getD "", opts⟩
            cert key caDir caFile lib

/-! ## Accessors and `Clone` (source lines 479-554) -/

/-- `XrdTlsContext::Context()`: whether `pImpl->ctx` is non-null. -/
def Context (r : BuildResult) : Bool := r.ctx

/-- `XrdTlsContext::GetParams()`. -/
def GetParams (r : BuildResult) : CTX_Params := r.parm

/-- `XrdTlsContext::x509Verify()`:
`!Parm.cadir.empty() || !Parm.cafile.empty()`. -/
def x509Verify (r : BuildResult) : Bool :=
  !(r.parm.cadir == "") || !(r.parm.cafile == "")

/-- The `my.field.size() ? my.field.c_str() : 0` conversion `Clone` applies
to each stored parameter before replaying it. -/
def strOpt (s : String) : Option String := if s.length != 0 then some s else none

/-- `XrdTlsContext::Clone()`: rebuild from the stored `CTX_Params`, return
the new context when its accessor is non-null, otherwise delete it and
return null (`none`). -/
def Clone (r : BuildResult) (env : Env) (fs : FS) (lib : SSLLib) (done : Bool) :
    Option BuildResult :=
  let xtc := build (strOpt r.parm.cert) (strOpt r.parm.pkey)
      (strOpt r.parm.cadir) (strOpt r.parm.cafile) r.parm.opts env fs lib done
  if xtc.ctx then some xtc else none

/-- The conjunction of the validation steps named by the spec: the
initialization gate, the client-side CA requirement, path validation, method
selection, context allocation, verify-location load (when CA material is
present), cipher-list load, and — when a certificate is in use — the
certificate load, key load, and key/cert cross-check. -/
def StepsPass (cert0 key0 caDir0 caFile0 : Option String) (opts : Opts)
    (env : Env) (fs : FS) (lib : SSLLib) (done : Bool) : Prop :=
  (done || lib.threads) = true
  ∧ (!opts.server && (caDirR caDir0 caFile0 opts env).isNone
        && (caFileR caDir0 caFile0 opts env).isNone) = false
  ∧ VerPaths fs (certR cert0 opts env) (keyR key0 opts env)
      (caDirR caDir0 caFile0 opts env) (caFileR caDir0 caFile0 opts env) = none
  ∧ lib.methodAvail = true
  ∧ lib.allocOK = true
  ∧ (((caDirR caDir0 caFile0 opts env).isSome
        || (caFileR caDir0 caFile0 opts env).isSome) = true →
      lib.loadVerifyOK (caFileR caDir0 caFile0 opts env)
        (caDirR caDir0 caFile0 opts env) = true)
  ∧ lib.cipherOK sslCiphers = true
  ∧ (match certR cert0 opts env with
     | none => True
     | some c =>
         lib.certFileOK c = true
         ∧ lib.keyFileOK ((keyR key0 opts env).getD c) = true
         ∧ lib.keyMatchOK = true)

/-! ## Helper lemmas -/

theorem length_eq_zero_iff {s : String} : s.length = 0 ↔ s = "" := by
  constructor
  · intro h
    cases s with
    | mk data => simp [String.length] at h; simp [h]
  · intro h; simp [h]

theorem initTLS_initDone_true (v : LibVer) (g : TlsGlobals) :
    (InitTLS v g).initDone = true := by
  unfold InitTLS
  split
  · assumption
  · split
    · split <;> rfl
    · rfl

theorem initTLS_noop (v : LibVer) (g : TlsGlobals) (h : g.initDone = true) :
    InitTLS v g = g := by
  unfold InitTLS; simp [h]

theorem initTLS_count_succ (v : LibVer) (g : TlsGlobals) (h : g.initDone = false) :
    (InitTLS v g).libInitCount = g.libInitCount + 1 := by
  cases hleg : v.legacy <;>
    rcases Nat.eq_zero_or_pos v.numLocks with hn | hn <;>
      simp [InitTLS, h, hleg, hn]

theorem initTLS_iter_count (v : LibVer) (n : Nat) :
    ((InitTLS v)^[n] g0).libInitCount = min n 1 := by
  induction n with
  | zero => rfl
  | succ n ih =>
      rw [Function.iterate_succ_apply']
      cases n with
      | zero =>
          simp only [Function.iterate_zero_apply]
          rw [initTLS_count_succ v g0 rfl]
          simp [g0]
      | succ m =>
          have hd : ((InitTLS v)^[m + 1] g0).initDone = true := by
            rw [Function.iterate_succ_apply']
            exact initTLS_initDone_true v _
          rw [initTLS_noop v _ hd, ih]
          omega

/-! ## Claim C9: the one-time initializer -/

/-- C9: the global initializer is idempotent and runs at most once per
process: a call on an already-initialized state is a no-op leaving the
globals unchanged, every call leaves the flag set, applying it twice equals
applying it once, the library setup sequence runs `min n 1` times across `n`
calls from a fresh process, and the first call installs the thread-id
callback exactly on legacy versions and the locking callback exactly on
legacy versions reporting a positive `num_locks`. -/
theorem initTLS_idempotent_once (v : LibVer) (g : TlsGlobals) (n : Nat) :
    (g.initDone = true → InitTLS v g = g)
    ∧ (InitTLS v g).initDone = true
    ∧ InitTLS v (InitTLS v g) = InitTLS v g
    ∧ ((InitTLS v)^[n] g0).libInitCount = min n 1
    ∧ (InitTLS v g0).idCB = v.legacy
    ∧ (InitTLS v g0).lockCB = (v.legacy && (v.numLocks != 0)) := by
  refine ⟨initTLS_noop v g, initTLS_initDone_true v g,
    initTLS_noop v _ (initTLS_initDone_true v g), initTLS_iter_count v n, ?_, ?_⟩
  · cases hleg : v.legacy <;>
      rcases Nat.eq_zero_or_pos v.numLocks with hn | hn <;>
        simp [InitTLS, g0, hleg, hn]
  · cases hleg : v.legacy
    · rcases Nat.eq_zero_or_pos v.numLocks with hn | hn <;>
        simp [InitTLS, g0, hleg, hn]
    · rcases Nat.eq_zero_or_pos v.numLocks with hn | hn
      · simp [InitTLS, g0, hleg, hn]
      · simp [InitTLS, g0, hleg, hn, Nat.pos_iff_ne_zero.mp hn]

/-- Witness for C9 at concrete inputs, discharging the no-op hypothesis on
an already-initialized state. -/
theorem initTLS_idempotent_once_witness :
    InitTLS ⟨true, 3⟩ (InitTLS ⟨true, 3⟩ g0) = InitTLS ⟨true, 3⟩ g0
    ∧ ((InitTLS ⟨true, 3⟩)^[2] g0).libInitCount = min 2 1
    ∧ InitTLS ⟨true, 3⟩ ⟨true, 1, true, true, 3⟩ = ⟨true, 1, true, true, 3⟩ :=
  ⟨(initTLS_idempotent_once ⟨true, 3⟩ g0 2).2.2.1,
   (initTLS_idempotent_once ⟨true, 3⟩ g0 2).2.2.2.1,
   (initTLS_idempotent_once ⟨true, 3⟩ ⟨true, 1, true, true, 3⟩ 0).1 rfl⟩

/-! ## Claim C3: the verification callback -/

/-- Concrete stand-in for `X509_verify_cert_error_string`. -/
def vcbErrStr0 : Int → String := fun _ => "certificate error"

/-- Concrete store context for the C3 counterexample. -/
def store0 : StoreCtx := ⟨"/DC=ch/CN=subject", "/DC=ch/CN=issuer", 0, 20⟩

/-- C3 counterexample: on a rejected certificate the three records `VerCB`
emits all carry `isError = false` (the source passes `false` as the third
`msgCB` argument), refuting the claim that they are marked as errors
(`isError` true). -/
theorem verCB_isErr_false_cex :
    (VerCB vcbErrStr0 0 store0).2.map Msg.isErr = [false, false, false]
    ∧ ¬ (∀ m ∈ (VerCB vcbErrStr0 0 store0).2, m.isErr = true) := by
  constructor
  · rfl
  · intro h
    have hm := h ⟨"Cert", "Cert verification failed for DN=" ++ store0.subjectDN, false⟩
      (by simp [VerCB, store0])
    simp at hm

/-- C3 amended: the callback returns `aOK` unchanged; when `aOK` is truthy
it emits nothing; when `aOK` is falsy it emits exactly the three records
describing the failing subject DN, the issuer DN, and the error code, depth
and human-readable string, each tagged `"Cert"` with the `isError` flag
`false`. -/
theorem verCB_spec (es : Int → String) (aOK : Int) (x : StoreCtx) :
    (VerCB es aOK x).1 = aOK
    ∧ (aOK ≠ 0 → (VerCB es aOK x).2 = [])
    ∧ (aOK = 0 → (VerCB es aOK x).2 =
        [⟨"Cert", "Cert verification failed for DN=" ++ x.subjectDN, false⟩,
         ⟨"Cert", "Failing cert issuer=" ++ x.issuerDN, false⟩,
         ⟨"Cert", "Error " ++ toString x.errCode ++ " at depth " ++ toString x.depth
                  ++ " [" ++ es x.errCode ++ "]", false⟩]) := by
  refine ⟨?_, ?_, ?_⟩
  · unfold VerCB; split <;> rfl
  · intro h; unfold VerCB; simp [h]
  · intro h; unfold VerCB; simp [h]

/-- Witness for the amended C3 at concrete inputs, discharging both the
truthy and the falsy hypothesis. -/
theorem verCB_spec_witness :
    (VerCB vcbErrStr0 1 store0).2 = []
    ∧ (VerCB vcbErrStr0 0 store0).2 =
        [⟨"Cert", "Cert verification failed for DN=" ++ store0.subjectDN, false⟩,
         ⟨"Cert", "Failing cert issuer=" ++ store0.issuerDN, false⟩,
         ⟨"Cert", "Error " ++ toString store0.errCode ++ " at depth "
                  ++ toString store0.depth ++ " [" ++ vcbErrStr0 store0.errCode ++ "]",
          false⟩] :=
  ⟨(verCB_spec vcbErrStr0 1 store0).2.1 (by decide),
   (verCB_spec vcbErrStr0 0 store0).2.2 rfl⟩

/-! ## Path-validator lemmas -/

theorem chkPath_none_some {fs : FS} {path : String} {allowed : Nat} {isDir : Bool}
    {role : String} :
    chkPath fs (some path) allowed isDir role = none ↔
      ValPath fs path allowed isDir = none := by
  unfold chkPath
  cases hv : ValPath fs path allowed isDir <;> simp [hv]

theorem chkPath_eq_some {fs : FS} {p : Option String} {allowed : Nat}
    {isDir : Bool} {role m : String}
    (h : chkPath fs p allowed isDir role = some m) :
    ∃ path e, p = some path ∧ ValPath fs path allowed isDir = some e
      ∧ m = role ++ path ++ "; " ++ e := by
  cases p with
  | none => simp [chkPath] at h
  | some path =>
      cases hv : ValPath fs path allowed isDir with
      | none => simp [chkPath, hv] at h
      | some e =>
          simp [chkPath, hv] at h
          exact ⟨path, e, rfl, hv, h.symm⟩

theorem verPaths_none_iff {fs : FS} {cert pkey cadr cafl : Option String} :
    VerPaths fs cert pkey cadr cafl = none ↔
      chkPath fs cadr cadr_mode true "Unable to use CA cert directory " = none
      ∧ chkPath fs cafl cafl_mode false "Unable to use CA cert file " = none
      ∧ chkPath fs pkey pkey_mode false "Unable to use key file " = none
      ∧ chkPath fs cert (if pkey.isSome then cert_mode else pkey_mode) false
          (if pkey.isSome then "Unable to use cert file "
           else "Unable to use cert+key file ") = none := by
  unfold VerPaths
  cases h1 : chkPath fs cadr cadr_mode true "Unable to use CA cert directory " with
  | some m => simp [h1]
  | none =>
    cases h2 : chkPath fs cafl cafl_mode false "Unable to use CA cert file " with
    | some m => simp [h2]
    | none =>
      cases h3 : chkPath fs pkey pkey_mode false "Unable to use key file " with
      | some m => simp [h3]
      | none => simp

theorem valPath_none_isSome {fs : FS} {path : String} {allowed : Nat} {isDir : Bool}
    (h : ValPath fs path allowed isDir = none) : (fs path).isSome = true := by
  unfold ValPath at h
  cases hf : fs path with
  | none => rw [hf] at h; cases h
  | some meta => rfl

theorem valPath_ne_empty {fs : FS} {path : String} {allowed : Nat} {isDir : Bool}
    (hfs : fs "" = none) (h : ValPath fs path allowed isDir = none) : path ≠ "" := by
  intro he
  subst he
  have hs := valPath_none_isSome h
  rw [hfs] at hs
  cases hs

theorem verPaths_not_empty {fs : FS} {cert pkey cadr cafl : Option String}
    (hfs : fs "" = none) (hvp : VerPaths fs cert pkey cadr cafl = none) :
    cert ≠ some "" ∧ pkey ≠ some "" ∧ cadr ≠ some "" ∧ cafl ≠ some "" := by
  obtain ⟨h1, h2, h3, h4⟩ := verPaths_none_iff.mp hvp
  refine ⟨?_, ?_, ?_, ?_⟩ <;> intro he <;> subst he
  · exact valPath_ne_empty hfs (chkPath_none_some.mp h4) rfl
  · exact valPath_ne_empty hfs (chkPath_none_some.mp h3) rfl
  · exact valPath_ne_empty hfs (chkPath_none_some.mp h1) rfl
  · exact valPath_ne_empty hfs (chkPath_none_some.mp h2) rfl

/-! ## Claim C5: the path validator -/

/-- C5: the certificate's effective mask depends on whether a separate
private key was supplied — `cert_mode` (owner rw, group rwx, other r =
`0o674`) with one, `pkey_mode` (owner rw only = `0o600`) without; the first
failing entry (checked in the order CA directory, CA file, key,
certificate) short-circuits the validation; and every returned message is
the offending role text followed by the offending path. -/
theorem verPaths_cert_mask (fs : FS) (cert pkey cadr cafl : Option String) :
    (cert_mode = 0o674 ∧ pkey_mode = 0o600)
    ∧ (chkPath fs cadr cadr_mode true "Unable to use CA cert directory " = none →
       chkPath fs cafl cafl_mode false "Unable to use CA cert file " = none →
       chkPath fs pkey pkey_mode false "Unable to use key file " = none →
       VerPaths fs cert pkey cadr cafl =
         chkPath fs cert (if pkey.isSome then cert_mode else pkey_mode) false
           (if pkey.isSome then "Unable to use cert file "
            else "Unable to use cert+key file "))
    ∧ (∀ m, chkPath fs cadr cadr_mode true "Unable to use CA cert directory " = some m →
        VerPaths fs cert pkey cadr cafl = some m)
    ∧ (∀ m, chkPath fs cadr cadr_mode true "Unable to use CA cert directory " = none →
        chkPath fs cafl cafl_mode false "Unable to use CA cert file " = some m →
        VerPaths fs cert pkey cadr cafl = some m)
    ∧ (∀ m, chkPath fs cadr cadr_mode true "Unable to use CA cert directory " = none →
        chkPath fs cafl cafl_mode false "Unable to use CA cert file " = none →
        chkPath fs pkey pkey_mode false "Unable to use key file " = some m →
        VerPaths fs cert pkey cadr cafl = some m)
    ∧ (∀ m, VerPaths fs cert pkey cadr cafl = some m →
        ∃ p e role, m = role ++ p ++ "; " ++ e
          ∧ ((cadr = some p ∧ role = "Unable to use CA cert directory ")
             ∨ (cafl = some p ∧ role = "Unable to use CA cert file ")
             ∨ (pkey = some p ∧ role = "Unable to use key file ")
             ∨ (cert = some p
                ∧ (role = "Unable to use cert file "
                   ∨ role = "Unable to use cert+key file ")))) := by
  refine ⟨⟨by decide, by decide⟩, ?_, ?_, ?_, ?_, ?_⟩
  · intro h1 h2 h3
    unfold VerPaths
    rw [h1, h2, h3]
  · intro m h1
    unfold VerPaths
    rw [h1]
  · intro m h1 h2
    unfold VerPaths
    rw [h1, h2]
  · intro m h1 h2 h3
    unfold VerPaths
    rw [h1, h2, h3]
  · intro m h
    unfold VerPaths at h
    cases h1 : chkPath fs cadr cadr_mode true "Unable to use CA cert directory " with
    | some m1 =>
        rw [h1] at h
        cases h
        obtain ⟨p, e, hp, _, hm⟩ := chkPath_eq_some h1
        exact ⟨p, e, _, hm, Or.inl ⟨hp, rfl⟩⟩
    | none =>
    rw [h1] at h
    cases h2 : chkPath fs cafl cafl_mode false "Unable to use CA cert file " with
    | some m2 =>
        rw [h2] at h
        cases h
        obtain ⟨p, e, hp, _, hm⟩ := chkPath_eq_some h2
        exact ⟨p, e, _, hm, Or.inr (Or.inl ⟨hp, rfl⟩)⟩
    | none =>
    rw [h2] at h
    cases h3 : chkPath fs pkey pkey_mode false "Unable to use key file " with
    | some m3 =>
        rw [h3] at h
        cases h
        obtain ⟨p, e, hp, _, hm⟩ := chkPath_eq_some h3
        exact ⟨p, e, _, hm, Or.inr (Or.inr (Or.inl ⟨hp, rfl⟩))⟩
    | none =>
    rw [h3] at h
    obtain ⟨p, e, hp, _, hm⟩ := chkPath_eq_some h
    refine ⟨p, e, _, hm, Or.inr (Or.inr (Or.inr ⟨hp, ?_⟩))⟩
    cases hk : pkey.isSome <;> simp [hk]

/-- Concrete filesystem used by witnesses: a CA directory at mode `0o755`,
a certificate at `0o644`, a good key at `0o600`, an overly permissive key at
`0o640`; everything else (the empty path included) does not exist. -/
def fs0 : FS := fun p =>
  if p = "/etc/grid-security/certificates" then some ⟨true, 0o755⟩
  else if p = "/home/u/cert.pem" then some ⟨false, 0o644⟩
  else if p = "/home/u/key.pem" then some ⟨false, 0o600⟩
  else if p = "/home/u/badkey.pem" then some ⟨false, 0o640⟩
  else none

/-- Witness for C5 at concrete inputs: the cert entry is checked against
`cert_mode` when a key is present, the validation passing there; and a
failing CA directory short-circuits, its message naming role and path. -/
theorem verPaths_cert_mask_witness :
    VerPaths fs0 (some "/home/u/cert.pem") (some "/home/u/key.pem")
        (some "/etc/grid-security/certificates") none =
      chkPath fs0 (some "/home/u/cert.pem") cert_mode false "Unable to use cert file "
    ∧ VerPaths fs0 (some "/home/u/cert.pem") (some "/home/u/key.pem")
        (some "/nope") none =
      some ("Unable to use CA cert directory " ++ "/nope" ++ "; " ++ "path not found") :=
  ⟨(verPaths_cert_mask fs0 (some "/home/u/cert.pem") (some "/home/u/key.pem")
      (some "/etc/grid-security/certificates") none).2.1 (by decide) (by decide) (by decide),
   (verPaths_cert_mask fs0 (some "/home/u/cert.pem") (some "/home/u/key.pem")
      (some "/nope") none).2.2.1 _ (by decide)⟩

/-! ## Constructor lemmas -/

theorem loadCreds_parm (parm : CTX_Params) (vs : VerifySettings)
    (cert key : Option String) (lib : SSLLib) :
    (loadCreds parm vs cert key lib).parm = parm := by
  unfold loadCreds
  dsimp only
  repeat' split
  all_goals rfl

theorem loadCreds_vset (parm : CTX_Params) (vs : VerifySettings)
    (cert key : Option String) (lib : SSLLib) :
    (loadCreds parm vs cert key lib).vset = vs := by
  unfold loadCreds
  dsimp only
  repeat' split
  all_goals rfl

theorem afterCapture_parm (parm : CTX_Params) (cert key caDir caFile : Option String)
    (lib : SSLLib) :
    (afterCapture parm cert key caDir caFile lib).parm = parm := by
  unfold afterCapture
  repeat' split
  all_goals first | rfl | apply loadCreds_parm

theorem loadCreds_total (parm : CTX_Params) (vs : VerifySettings)
    (cert key : Option String) (lib : SSLLib) :
    ((loadCreds parm vs cert key lib).ctx = true
      ∧ lib.cipherOK sslCiphers = true
      ∧ (match cert with
         | none => True
         | some c => lib.certFileOK c = true
             ∧ lib.keyFileOK (key.getD c) = true ∧ lib.keyMatchOK = true))
    ∨ ((loadCreds parm vs cert key lib).ctx = false
        ∧ (loadCreds parm vs cert key lib).msgs ≠ []) := by
  cases hci : lib.cipherOK sslCiphers
  case false => right; simp [loadCreds, hci]
  case true =>
    cases cert with
    | none => left; simp [loadCreds, hci]
    | some c =>
        cases hcf : lib.certFileOK c
        case false => right; simp [loadCreds, hci, hcf]
        case true =>
        cases hkf : lib.keyFileOK (key.getD c)
        case false => right; simp [loadCreds, hci, hcf, hkf]
        case true =>
        cases hkm : lib.keyMatchOK
        case false => right; simp [loadCreds, hci, hcf, hkf, hkm]
        case true => left; simp [loadCreds, hci, hcf, hkf, hkm]

theorem afterCapture_total (parm : CTX_Params) (cert key caDir caFile : Option String)
    (lib : SSLLib) :
    ((afterCapture parm cert key caDir caFile lib).ctx = true
      ∧ lib.methodAvail = true
      ∧ lib.allocOK = true
      ∧ ((caDir.isSome || caFile.isSome) = true → lib.loadVerifyOK caFile caDir = true)
      ∧ lib.cipherOK sslCiphers = true
      ∧ (match cert with
         | none => True
         | some c => lib.certFileOK c = true
             ∧ lib.keyFileOK (key.getD c) = true ∧ lib.keyMatchOK = true))
    ∨ ((afterCapture parm cert key caDir caFile lib).ctx = false
        ∧ (afterCapture parm cert key caDir caFile lib).msgs ≠ []) := by
  cases hm : lib.methodAvail
  case false => right; simp [afterCapture, hm]
  case true =>
  cases hal : lib.allocOK
  case false => right; simp [afterCapture, hm, hal]
  case true =>
  cases hcaP : (caDir.isSome || caFile.isSome)
  case true =>
    cases hlv : lib.loadVerifyOK caFile caDir
    case false => right; simp [afterCapture, hm, hal, hcaP, hlv]
    case true =>
      rcases loadCreds_total parm
          ⟨.vPeer, some (if parm.opts.vDepth != 0 then parm.opts.vDepth else 9),
           parm.opts.logVF⟩ cert key lib with ⟨h1, h2, h3⟩ | ⟨h1, h2⟩
      · left
        refine ⟨?_, rfl, rfl, fun _ => rfl, h2, h3⟩
        simpa [afterCapture, hm, hal, hcaP, hlv] using h1
      · right
        constructor
        · simpa [afterCapture, hm, hal, hcaP, hlv] using h1
        · simpa [afterCapture, hm, hal, hcaP, hlv] using h2
  case false =>
    rcases loadCreds_total parm ⟨.vNone, none, false⟩ cert key lib with
      ⟨h1, h2, h3⟩ | ⟨h1, h2⟩
    · left
      refine ⟨?_, rfl, rfl, by simp, h2, h3⟩
      simpa [afterCapture, hm, hal, hcaP] using h1
    · right
      constructor
      · simpa [afterCapture, hm, hal, hcaP] using h1
      · simpa [afterCapture, hm, hal, hcaP] using h2

/-! ## Claim C1: total correctness of the build outcome -/

/-- C1: for every input and environment, after the constructor runs, either
the accessor is non-null and every validation step (initialization gate,
client-side CA defaulting, path validation, method selection, allocation,
verify-location load, cipher load, and — when a cert is in use — cert load,
key load and key/cert cross-check, as collected in `StepsPass`) passed, or
the accessor is null and at least one diagnostic was emitted via the sink. -/
theorem build_total (cert0 key0 caDir0 caFile0 : Option String) (opts : Opts)
    (env : Env) (fs : FS) (lib : SSLLib) (done : Bool) :
    ((build cert0 key0 caDir0 caFile0 opts env fs lib done).ctx = true
      ∧ StepsPass cert0 key0 caDir0 caFile0 opts env fs lib done)
    ∨ ((build cert0 key0 caDir0 caFile0 opts env fs lib done).ctx = false
      ∧ (build cert0 key0 caDir0 caFile0 opts env fs lib done).msgs ≠ []) := by
  cases hg : (!done && !lib.threads)
  case true => right; simp [build, hg]
  case false =>
  have hgate : (done || lib.threads) = true := by
    revert hg; cases done <;> cases lib.threads <;> simp
  cases hca : (!opts.server && (caDirR caDir0 caFile0 opts env).isNone
      && (caFileR caDir0 caFile0 opts env).isNone)
  case true => right; simp [build, hg, hca]
  case false =>
  cases hvp : VerPaths fs (certR cert0 opts env) (keyR key0 opts env)
      (caDirR caDir0 caFile0 opts env) (caFileR caDir0 caFile0 opts env)
  case some e => right; simp [build, hg, hca, hvp]
  case none =>
  have hb : build cert0 key0 caDir0 caFile0 opts env fs lib done =
      afterCapture
        ⟨(certR cert0 opts env).getD "", (keyR key0 opts env).getD "",
         (caDirR caDir0 caFile0 opts env).getD "",
         (caFileR caDir0 caFile0 opts env).getD "", opts⟩
        (certR cert0 opts env) (keyR key0 opts env)
        (caDirR caDir0 caFile0 opts env) (caFileR caDir0 caFile0 opts env) lib := by
    simp [build, hg, hca, hvp]
  rw [hb]
  rcases afterCapture_total
      ⟨(certR cert0 opts env).getD "", (keyR key0 opts env).getD "",
       (caDirR caDir0 caFile0 opts env).getD "",
       (caFileR caDir0 caFile0 opts env).getD "", opts⟩
      (certR cert0 opts env) (keyR key0 opts env)
      (caDirR caDir0 caFile0 opts env) (caFileR caDir0 caFile0 opts env) lib with
    ⟨h1, h2, h3, h4, h5, h6⟩ | ⟨h1, h2⟩
  · left
    exact ⟨h1, hgate, hca, hvp, h2, h3, h4, h5, h6⟩
  · right
    exact ⟨h1, h2⟩

/-- Shared concrete environment with no `X509_*` variables set. -/
def env0 : Env := ⟨none, none, none, none⟩

/-- Shared concrete library oracle on which every call succeeds. -/
def libAll : SSLLib :=
  ⟨true, true, true, fun _ _ => true, fun _ => true, fun _ => true, fun _ => true, true⟩

/-- Shared concrete options word: client, no verify-failure logging,
default depth. -/
def opts0 : Opts := ⟨false, false, 0⟩

/-- Witness for C1 at a concrete input: a client build with a CA directory,
certificate and key on `fs0` succeeds with every step passing. -/
theorem build_total_witness :
    ((build (some "/home/u/cert.pem") (some "/home/u/key.pem")
        (some "/etc/grid-security/certificates") none opts0 env0 fs0 libAll true).ctx = true
      ∧ StepsPass (some "/home/u/cert.pem") (some "/home/u/key.pem")
          (some "/etc/grid-security/certificates") none opts0 env0 fs0 libAll true)
    ∨ ((build (some "/home/u/cert.pem") (some "/home/u/key.pem")
        (some "/etc/grid-security/certificates") none opts0 env0 fs0 libAll true).ctx = false
      ∧ (build (some "/home/u/cert.pem") (some "/home/u/key.pem")
          (some "/etc/grid-security/certificates") none opts0 env0 fs0 libAll true).msgs ≠ []) :=
  build_total (some "/home/u/cert.pem") (some "/home/u/key.pem")
    (some "/etc/grid-security/certificates") none opts0 env0 fs0 libAll true

/-! ## Claim C2: diagnostic component tags -/

/-- The component tags a constructor diagnostic can carry: `"TLS_Context"`
everywhere except the missing-CA-location message (tagged `"Tls_Context"`,
line 337 of the source) and the certificate-load failure (tagged
`"LS_Context"`, line 443). -/
def TagOK (m : Msg) : Prop :=
  m.tag = "TLS_Context"
  ∨ (m.tag = "Tls_Context" ∧ m.msg = noCAMsg)
  ∨ (m.tag = "LS_Context"
     ∧ m.msg = "Unable to create TLS context; certificate error.")

theorem loadCreds_msgs_shape (parm : CTX_Params) (vs : VerifySettings)
    (cert key : Option String) (lib : SSLLib) :
    (loadCreds parm vs cert key lib).msgs = []
    ∨ ∃ m, (loadCreds parm vs cert key lib).msgs = [m] ∧ TagOK m := by
  cases hci : lib.cipherOK sslCiphers
  case false =>
    right
    exact ⟨EmsgRec "TLS_Context" "Unable to set SSL cipher list.",
      by simp [loadCreds, hci], Or.inl rfl⟩
  case true =>
    cases cert with
    | none => left; simp [loadCreds, hci]
    | some c =>
        cases hcf : lib.certFileOK c
        case false =>
          right
          exact ⟨EmsgRec "LS_Context" "Unable to create TLS context; certificate error.",
            by simp [loadCreds, hci, hcf], Or.inr (Or.inr ⟨rfl, rfl⟩)⟩
        case true =>
        cases hkf : lib.keyFileOK (key.getD c)
        case false =>
          right
          exact ⟨EmsgRec "TLS_Context" "Unable to create TLS context; private key error.",
            by simp [loadCreds, hci, hcf, hkf], Or.inl rfl⟩
        case true =>
        cases hkm : lib.keyMatchOK
        case false =>
          right
          exact ⟨EmsgRec "TLS_Context" "Unable to create TLS context; cert-key mismatch.",
            by simp [loadCreds, hci, hcf, hkf, hkm], Or.inl rfl⟩
        case true => left; simp [loadCreds, hci, hcf, hkf, hkm]

theorem afterCapture_msgs_shape (parm : CTX_Params)
    (cert key caDir caFile : Option String) (lib : SSLLib) :
    (afterCapture parm cert key caDir caFile lib).msgs = []
    ∨ ∃ m, (afterCapture parm cert key caDir caFile lib).msgs = [m] ∧ TagOK m := by
  cases hm : lib.methodAvail
  case false =>
    right
    exact ⟨⟨"TLS_Context", "No negotiable TLS method available.", false⟩,
      by simp [afterCapture, hm], Or.inl rfl⟩
  case true =>
  cases hal : lib.allocOK
  case false =>
    right
    exact ⟨EmsgRec "TLS_Context" "Unable to allocate TLS context!",
      by simp [afterCapture, hm, hal], Or.inl rfl⟩
  case true =>
  cases hcaP : (caDir.isSome || caFile.isSome)
  case true =>
    cases hlv : lib.loadVerifyOK caFile caDir
    case false =>
      right
      exact ⟨EmsgRec "TLS_Context" "Unable to set the CA cert file or directory.",
        by simp [afterCapture, hm, hal, hcaP, hlv], Or.inl rfl⟩
    case true =>
      have hs := loadCreds_msgs_shape parm
        ⟨.vPeer, some (if parm.opts.vDepth != 0 then parm.opts.vDepth else 9),
         parm.opts.logVF⟩ cert key lib
      rcases hs with h | ⟨m, hm1, ht⟩
      · left; simpa [afterCapture, hm, hal, hcaP, hlv] using h
      · right; exact ⟨m, by simpa [afterCapture, hm, hal, hcaP, hlv] using hm1, ht⟩
  case false =>
    have hs := loadCreds_msgs_shape parm ⟨.vNone, none, false⟩ cert key lib
    rcases hs with h | ⟨m, hm1, ht⟩
    · left; simpa [afterCapture, hm, hal, hcaP] using h
    · right; exact ⟨m, by simpa [afterCapture, hm, hal, hcaP] using hm1, ht⟩

theorem build_msgs_shape (cert0 key0 caDir0 caFile0 : Option String) (opts : Opts)
    (env : Env) (fs : FS) (lib : SSLLib) (done : Bool) :
    (build cert0 key0 caDir0 caFile0 opts env fs lib done).msgs = []
    ∨ ∃ m, (build cert0 key0 caDir0 caFile0 opts env fs lib done).msgs = [m]
        ∧ TagOK m := by
  cases hg : (!done && !lib.threads)
  case true =>
    right
    exact ⟨⟨"TLS_Context", threadsEmsg, false⟩, by simp [build, hg], Or.inl rfl⟩
  case false =>
  cases hca : (!opts.server && (caDirR caDir0 caFile0 opts env).isNone
      && (caFileR caDir0 caFile0 opts env).isNone)
  case true =>
    right
    exact ⟨⟨"Tls_Context", noCAMsg, false⟩, by simp [build, hg, hca],
      Or.inr (Or.inl ⟨rfl, rfl⟩)⟩
  case false =>
  cases hvp : VerPaths fs (certR cert0 opts env) (keyR key0 opts env)
      (caDirR caDir0 caFile0 opts env) (caFileR caDir0 caFile0 opts env)
  case some e =>
    right
    exact ⟨⟨"TLS_Context", e, false⟩, by simp [build, hg, hca, hvp], Or.inl rfl⟩
  case none =>
    have hs := afterCapture_msgs_shape
      ⟨(certR cert0 opts env).getD "", (keyR key0 opts env).getD "",
       (caDirR caDir0 caFile0 opts env).getD "",
       (caFileR caDir0 caFile0 opts env).getD "", opts⟩
      (certR cert0 opts env) (keyR key0 opts env)
      (caDirR caDir0 caFile0 opts env) (caFileR caDir0 caFile0 opts env) lib
    rcases hs with h | ⟨m, hm1, ht⟩
    · left; simpa [build, hg, hca, hvp] using h
    · right; exact ⟨m, by simpa [build, hg, hca, hvp] using hm1, ht⟩

/-- C2 counterexample: the client build with no CA material anywhere emits
its single build-failure diagnostic with the component tag `"Tls_Context"`,
which differs from `"TLS_Context"`, refuting the claim that every
build-failure diagnostic carries the tag `"TLS_Context"`. -/
theorem build_diag_tags_cex :
    (build none none none none opts0 env0 fs0 libAll true).msgs
      = [⟨"Tls_Context", noCAMsg, false⟩]
    ∧ ("Tls_Context" : String) ≠ "TLS_Context" := by
  constructor
  · rfl
  · decide

/-- C2 (amended): every diagnostic the constructor emits is emitted exactly
once (the emitted list is exactly the singleton of that record), and its
component tag is `"TLS_Context"`, except that the missing-CA-location
diagnostic is tagged `"Tls_Context"` and the certificate-load failure is
tagged `"LS_Context"`; only the verification callback uses `"Cert"`. -/
theorem build_diag_tags (cert0 key0 caDir0 caFile0 : Option String) (opts : Opts)
    (env : Env) (fs : FS) (lib : SSLLib) (done : Bool) (m : Msg)
    (hm : m ∈ (build cert0 key0 caDir0 caFile0 opts env fs lib done).msgs) :
    (build cert0 key0 caDir0 caFile0 opts env fs lib done).msgs = [m] ∧ TagOK m := by
  rcases build_msgs_shape cert0 key0 caDir0 caFile0 opts env fs lib done with
    h | ⟨m1, h1, ht⟩
  · rw [h] at hm; cases hm
  · rw [h1] at hm
    have hmm : m = m1 := by simpa using hm
    subst hmm
    exact ⟨h1, ht⟩

/-- Witness for the amended C2, discharging the membership hypothesis at
the concrete no-CA client build. -/
theorem build_diag_tags_witness :
    (build none none none none opts0 env0 fs0 libAll true).msgs
      = [⟨"Tls_Context", noCAMsg, false⟩]
    ∧ TagOK ⟨"Tls_Context", noCAMsg, false⟩ :=
  build_diag_tags none none none none opts0 env0 fs0 libAll true
    ⟨"Tls_Context", noCAMsg, false⟩ (by decide)

/-! ## Claim C4: `x509Verify` reflects committed CA material -/

theorem getD_beq_empty {x : Option String} (hx : x ≠ some "") :
    (!(x.getD "" == "")) = x.isSome := by
  cases x with
  | none => simp
  | some s =>
      have hs : s ≠ "" := fun h => hx (by rw [h])
      simp [hs]

/-- C4: `x509Verify()` returns true iff CA material was committed into the
context: the build reached the parameter-capture step (initialization gate,
client-CA requirement and path validation all passed) with a CA directory
or CA file among the resolved inputs. -/
theorem x509Verify_iff_committed (cert0 key0 caDir0 caFile0 : Option String)
    (opts : Opts) (env : Env) (fs : FS) (lib : SSLLib) (done : Bool)
    (hfs : fs "" = none) :
    x509Verify (build cert0 key0 caDir0 caFile0 opts env fs lib done) = true ↔
      ((!done && !lib.threads) = false
       ∧ (!opts.server && (caDirR caDir0 caFile0 opts env).isNone
            && (caFileR caDir0 caFile0 opts env).isNone) = false
       ∧ VerPaths fs (certR cert0 opts env) (keyR key0 opts env)
           (caDirR caDir0 caFile0 opts env) (caFileR caDir0 caFile0 opts env) = none
       ∧ ((caDirR caDir0 caFile0 opts env).isSome
            || (caFileR caDir0 caFile0 opts env).isSome) = true) := by
  cases hg : (!done && !lib.threads)
  case true => simp [x509Verify, build, hg, parm0]
  case false =>
  cases hca : (!opts.server && (caDirR caDir0 caFile0 opts env).isNone
      && (caFileR caDir0 caFile0 opts env).isNone)
  case true => simp [x509Verify, build, hg, hca, parm0]
  case false =>
  cases hvp : VerPaths fs (certR cert0 opts env) (keyR key0 opts env)
      (caDirR caDir0 caFile0 opts env) (caFileR caDir0 caFile0 opts env)
  case some e => simp [x509Verify, build, hg, hca, hvp, parm0]
  case none =>
    have hne := verPaths_not_empty hfs hvp
    have hparm : (build cert0 key0 caDir0 caFile0 opts env fs lib done).parm =
        ⟨(certR cert0 opts env).getD "", (keyR key0 opts env).getD "",
         (caDirR caDir0 caFile0 opts env).getD "",
         (caFileR caDir0 caFile0 opts env).getD "", opts⟩ := by
      simp [build, hg, hca, hvp, afterCapture_parm]
    have h1 := getD_beq_empty hne.2.2.1
    have h2 := getD_beq_empty hne.2.2.2
    simp [x509Verify, hparm, h1, h2]

/-- Witness for C4: a client build on `fs0` with a CA directory commits it,
and `x509Verify` reports true. -/
theorem x509Verify_iff_committed_witness :
    x509Verify (build (some "/home/u/cert.pem") (some "/home/u/key.pem")
      (some "/etc/grid-security/certificates") none opts0 env0 fs0 libAll true) = true :=
  (x509Verify_iff_committed (some "/home/u/cert.pem") (some "/home/u/key.pem")
      (some "/etc/grid-security/certificates") none opts0 env0 fs0 libAll true
      rfl).mpr ⟨rfl, rfl, by decide, rfl⟩

/-! ## Claim C6: client-side environment defaulting -/

/-- C6: when the server bit is clear and neither CA path was supplied the
builder substitutes `X509_CERT_DIR` and `X509_CERT_FILE`; an unsupplied
cert defaults from `X509_USER_PROXY` and an unsupplied key from
`X509_USER_KEY`; with the server bit set no defaulting occurs; and when
both CA locations remain absent after defaulting the build fails with the
"Unable to determine the location of trusted CA certificates…" diagnostic
and a null accessor. -/
theorem build_defaulting (cert0 key0 caDir0 caFile0 : Option String) (opts : Opts)
    (env : Env) (fs : FS) (lib : SSLLib) (done : Bool) :
    (opts.server = false → caDir0 = none → caFile0 = none →
      caDirR caDir0 caFile0 opts env = env.x509CertDir
      ∧ caFileR caDir0 caFile0 opts env = env.x509CertFile)
    ∧ (opts.server = false → cert0 = none →
        certR cert0 opts env = env.x509UserProxy)
    ∧ (opts.server = false → key0 = none →
        keyR key0 opts env = env.x509UserKey)
    ∧ (opts.server = true →
        caDirR caDir0 caFile0 opts env = caDir0
        ∧ caFileR caDir0 caFile0 opts env = caFile0
        ∧ certR cert0 opts env = cert0
        ∧ keyR key0 opts env = key0)
    ∧ (opts.server = false →
       caDirR caDir0 caFile0 opts env = none →
       caFileR caDir0 caFile0 opts env = none →
       (!done && !lib.threads) = false →
        Context (build cert0 key0 caDir0 caFile0 opts env fs lib done) = false
        ∧ (build cert0 key0 caDir0 caFile0 opts env fs lib done).msgs
            = [⟨"Tls_Context", noCAMsg, false⟩]
        ∧ noCAMsg = "Unable to determine the location of trusted CA certificates"
            ++ " to verify peer identify; this is required!") := by
  refine ⟨?_, ?_, ?_, ?_, ?_⟩
  · intro hs h1 h2; simp [caDirR, caFileR, hs, h1, h2]
  · intro hs h1; simp [certR, hs, h1]
  · intro hs h1; simp [keyR, hs, h1]
  · intro hs; simp [caDirR, caFileR, certR, keyR, hs]
  · intro hs h1 h2 hg
    have hca : (!opts.server && (caDirR caDir0 caFile0 opts env).isNone
        && (caFileR caDir0 caFile0 opts env).isNone) = true := by
      simp [hs, h1, h2]
    refine ⟨?_, ?_, rfl⟩
    · simp [Context, build, hg, hca]
    · simp [build, hg, hca]

/-- Witness for C6: with an empty environment and no supplied paths, the CA
locations default to the (unset) environment values and the client build
fails with the missing-CA diagnostic. -/
theorem build_defaulting_witness :
    (caDirR none none opts0 env0 = env0.x509CertDir
      ∧ caFileR none none opts0 env0 = env0.x509CertFile)
    ∧ (Context (build none none none none opts0 env0 fs0 libAll true) = false
       ∧ (build none none none none opts0 env0 fs0 libAll true).msgs
           = [⟨"Tls_Context", noCAMsg, false⟩]
       ∧ noCAMsg = "Unable to determine the location of trusted CA certificates"
           ++ " to verify peer identify; this is required!") :=
  ⟨(build_defaulting none none none none opts0 env0 fs0 libAll true).1 rfl rfl rfl,
   (build_defaulting none none none none opts0 env0 fs0 libAll true).2.2.2.2
     rfl rfl rfl rfl⟩

/-! ## Claim C7: the verification policy -/

/-- C7: once the build reaches the verification-policy step, if CA material
was supplied it sets the verify depth to the `verifyDepth` subfield when
nonzero and to 9 otherwise, requires a peer certificate, and installs the
callback exactly when `logVerifyFailures` is set; with no CA material it
sets the mode to none with no callback. -/
theorem build_verify_policy (cert0 key0 caDir0 caFile0 : Option String)
    (opts : Opts) (env : Env) (fs : FS) (lib : SSLLib) (done : Bool)
    (hg : (!done && !lib.threads) = false)
    (hca : (!opts.server && (caDirR caDir0 caFile0 opts env).isNone
        && (caFileR caDir0 caFile0 opts env).isNone) = false)
    (hvp : VerPaths fs (certR cert0 opts env) (keyR key0 opts env)
        (caDirR caDir0 caFile0 opts env) (caFileR caDir0 caFile0 opts env) = none)
    (hm : lib.methodAvail = true) (hal : lib.allocOK = true) :
    (((caDirR caDir0 caFile0 opts env).isSome
        || (caFileR caDir0 caFile0 opts env).isSome) = true →
      lib.loadVerifyOK (caFileR caDir0 caFile0 opts env)
          (caDirR caDir0 caFile0 opts env) = true →
      (build cert0 key0 caDir0 caFile0 opts env fs lib done).vset =
        ⟨.vPeer, some (if opts.vDepth != 0 then opts.vDepth else 9), opts.logVF⟩)
    ∧ (((caDirR caDir0 caFile0 opts env).isSome
        || (caFileR caDir0 caFile0 opts env).isSome) = false →
      (build cert0 key0 caDir0 caFile0 opts env fs lib done).vset =
        ⟨.vNone, none, false⟩) := by
  constructor
  · intro hcaP hlv
    simp [build, afterCapture, hg, hca, hvp, hm, hal, hcaP, hlv, loadCreds_vset]
  · intro hcaP
    simp [build, afterCapture, hg, hca, hvp, hm, hal, hcaP, loadCreds_vset]

/-- Witness for C7 at concrete inputs: with a CA directory the settings are
peer mode, depth 9, no callback; the anonymous server build gets mode none. -/
theorem build_verify_policy_witness :
    (build (some "/home/u/cert.pem") (some "/home/u/key.pem")
        (some "/etc/grid-security/certificates") none opts0 env0 fs0 libAll true).vset
      = ⟨.vPeer, some 9, false⟩
    ∧ (build none none none none ⟨true, false, 0⟩ env0 fs0 libAll true).vset
      = ⟨.vNone, none, false⟩ :=
  ⟨(build_verify_policy (some "/home/u/cert.pem") (some "/home/u/key.pem")
      (some "/etc/grid-security/certificates") none opts0 env0 fs0 libAll true
      rfl rfl (by decide) rfl rfl).1 rfl rfl,
   (build_verify_policy none none none none ⟨true, false, 0⟩ env0 fs0 libAll true
      rfl rfl rfl rfl rfl).2 rfl⟩

/-! ## Claim C10: failed builds after capture keep the Parameters record -/

/-- Library oracle whose `SSL_CTX_set_cipher_list` call fails. -/
def libNoCipher : SSLLib :=
  ⟨true, true, true, fun _ _ => true, fun _ => false, fun _ => true, fun _ => true, true⟩

/-- C10: when a build fails after path validation succeeded (at method
selection or any later step), the accessor is null yet the `CTX_Params`
record already holds the resolved post-default inputs, `GetParams` returns
them, and `x509Verify` returns true whenever CA material was among them —
the failed build is not state-atomic with respect to the record. -/
theorem build_fail_after_capture (cert0 key0 caDir0 caFile0 : Option String)
    (opts : Opts) (env : Env) (fs : FS) (lib : SSLLib) (done : Bool)
    (hfs : fs "" = none)
    (hg : (!done && !lib.threads) = false)
    (hca : (!opts.server && (caDirR caDir0 caFile0 opts env).isNone
        && (caFileR caDir0 caFile0 opts env).isNone) = false)
    (hvp : VerPaths fs (certR cert0 opts env) (keyR key0 opts env)
        (caDirR caDir0 caFile0 opts env) (caFileR caDir0 caFile0 opts env) = none)
    (hfail : (build cert0 key0 caDir0 caFile0 opts env fs lib done).ctx = false) :
    Context (build cert0 key0 caDir0 caFile0 opts env fs lib done) = false
    ∧ GetParams (build cert0 key0 caDir0 caFile0 opts env fs lib done) =
        ⟨(certR cert0 opts env).getD "", (keyR key0 opts env).getD "",
         (caDirR caDir0 caFile0 opts env).getD "",
         (caFileR caDir0 caFile0 opts env).getD "", opts⟩
    ∧ (((caDirR caDir0 caFile0 opts env).isSome
          || (caFileR caDir0 caFile0 opts env).isSome) = true →
        x509Verify (build cert0 key0 caDir0 caFile0 opts env fs lib done) = true) := by
  have hparm : (build cert0 key0 caDir0 caFile0 opts env fs lib done).parm =
      ⟨(certR cert0 opts env).getD "", (keyR key0 opts env).getD "",
       (caDirR caDir0 caFile0 opts env).getD "",
       (caFileR caDir0 caFile0 opts env).getD "", opts⟩ := by
    simp [build, hg, hca, hvp, afterCapture_parm]
  refine ⟨hfail, hparm, ?_⟩
  intro hcaP
  have hne := verPaths_not_empty hfs hvp
  have h1 := getD_beq_empty hne.2.2.1
  have h2 := getD_beq_empty hne.2.2.2
  simp [x509Verify, hparm, h1, h2, hcaP]

/-- Witness for C10: the cipher-list failure after a valid client setup
leaves a null accessor, the captured resolved parameters, and
`x509Verify = true`. -/
theorem build_fail_after_capture_witness :
    Context (build (some "/home/u/cert.pem") (some "/home/u/key.pem")
        (some "/etc/grid-security/certificates") none opts0 env0 fs0 libNoCipher true)
      = false
    ∧ GetParams (build (some "/home/u/cert.pem") (some "/home/u/key.pem")
        (some "/etc/grid-security/certificates") none opts0 env0 fs0 libNoCipher true)
      = ⟨"/home/u/cert.pem", "/home/u/key.pem",
         "/etc/grid-security/certificates", "", opts0⟩
    ∧ x509Verify (build (some "/home/u/cert.pem") (some "/home/u/key.pem")
        (some "/etc/grid-security/certificates") none opts0 env0 fs0 libNoCipher true)
      = true :=
  have h := build_fail_after_capture (some "/home/u/cert.pem") (some "/home/u/key.pem")
    (some "/etc/grid-security/certificates") none opts0 env0 fs0 libNoCipher true
    rfl rfl rfl (by decide) (by decide)
  ⟨h.1, h.2.1, h.2.2 rfl⟩

/-! ## Claim C8: `Clone` by parameter replay -/

theorem strOpt_getD {x : Option String} (hx : x ≠ some "") :
    strOpt (x.getD "") = x := by
  cases x with
  | none => rfl
  | some s =>
      have hs : s ≠ "" := fun h => hx (by rw [h])
      have hl : s.length ≠ 0 := fun h => hs (length_eq_zero_iff.mp h)
      simp [strOpt, hl]

theorem caDirR_idem (caDir0 caFile0 : Option String) (opts : Opts) (env : Env) :
    caDirR (caDirR caDir0 caFile0 opts env) (caFileR caDir0 caFile0 opts env) opts env
      = caDirR caDir0 caFile0 opts env := by
  cases hs : opts.server
  · cases hd : caDir0 <;> cases hf : caFile0 <;>
      simp [caDirR, caFileR, hs, hd, hf]
  · simp [caDirR, hs]

theorem caFileR_idem (caDir0 caFile0 : Option String) (opts : Opts) (env : Env) :
    caFileR (caDirR caDir0 caFile0 opts env) (caFileR caDir0 caFile0 opts env) opts env
      = caFileR caDir0 caFile0 opts env := by
  cases hs : opts.server
  · cases hd : caDir0 <;> cases hf : caFile0 <;>
      simp [caDirR, caFileR, hs, hd, hf]
  · simp [caFileR, hs]

theorem certR_idem (cert0 : Option String) (opts : Opts) (env : Env) :
    certR (certR cert0 opts env) opts env = certR cert0 opts env := by
  cases hs : opts.server
  · cases hc : cert0 <;> simp [certR, hs, hc]
  · simp [certR, hs]

theorem keyR_idem (key0 : Option String) (opts : Opts) (env : Env) :
    keyR (keyR key0 opts env) opts env = keyR key0 opts env := by
  cases hs : opts.server
  · cases hk : key0 <;> simp [keyR, hs, hk]
  · simp [keyR, hs]

/-- C8: `Clone` rebuilds from the stored parameters and returns the new
context exactly when its accessor is non-null, an empty result otherwise;
and replaying a successful build under the identical environment,
filesystem and library yields a successful context whose `CTX_Params`
record equals the original's. -/
theorem clone_replays (cert0 key0 caDir0 caFile0 : Option String) (opts : Opts)
    (env : Env) (fs : FS) (lib : SSLLib) (done : Bool)
    (hfs : fs "" = none)
    (hok : (build cert0 key0 caDir0 caFile0 opts env fs lib done).ctx = true) :
    (∀ r0 : BuildResult,
      Clone r0 env fs lib done =
        (if (build (strOpt r0.parm.cert) (strOpt r0.parm.pkey) (strOpt r0.parm.cadir)
              (strOpt r0.parm.cafile) r0.parm.opts env fs lib done).ctx
         then some (build (strOpt r0.parm.cert) (strOpt r0.parm.pkey)
              (strOpt r0.parm.cadir) (strOpt r0.parm.cafile) r0.parm.opts
              env fs lib done)
         else none))
    ∧ ∃ r1,
        Clone (build cert0 key0 caDir0 caFile0 opts env fs lib done) env fs lib done
          = some r1
        ∧ r1.parm = (build cert0 key0 caDir0 caFile0 opts env fs lib done).parm
        ∧ r1.ctx = true := by
  rcases build_total cert0 key0 caDir0 caFile0 opts env fs lib done with
    ⟨hctx, hsp⟩ | ⟨hcf, _⟩
  · unfold StepsPass at hsp
    obtain ⟨hgate, hca, hvp, _, _, _, _, _⟩ := hsp
    have hg : (!done && !lib.threads) = false := by
      revert hgate; cases done <;> cases lib.threads <;> simp
    have hne := verPaths_not_empty hfs hvp
    have hparm : (build cert0 key0 caDir0 caFile0 opts env fs lib done).parm =
        ⟨(certR cert0 opts env).getD "", (keyR key0 opts env).getD "",
         (caDirR caDir0 caFile0 opts env).getD "",
         (caFileR caDir0 caFile0 opts env).getD "", opts⟩ := by
      simp [build, hg, hca, hvp, afterCapture_parm]
    have hrep :
        build (strOpt (build cert0 key0 caDir0 caFile0 opts env fs lib done).parm.cert)
          (strOpt (build cert0 key0 caDir0 caFile0 opts env fs lib done).parm.pkey)
          (strOpt (build cert0 key0 caDir0 caFile0 opts env fs lib done).parm.cadir)
          (strOpt (build cert0 key0 caDir0 caFile0 opts env fs lib done).parm.cafile)
          (build cert0 key0 caDir0 caFile0 opts env fs lib done).parm.opts
          env fs lib done
        = build cert0 key0 caDir0 caFile0 opts env fs lib done := by
      rw [hparm]
      dsimp only
      rw [strOpt_getD hne.1, strOpt_getD hne.2.1, strOpt_getD hne.2.2.1,
        strOpt_getD hne.2.2.2]
      have e1 := caDirR_idem caDir0 caFile0 opts env
      have e2 := caFileR_idem caDir0 caFile0 opts env
      have e3 := certR_idem cert0 opts env
      have e4 := keyR_idem key0 opts env
      simp only [build]
      rw [e1, e2, e3, e4]
    refine ⟨fun r0 => rfl,
      build cert0 key0 caDir0 caFile0 opts env fs lib done, ?_, rfl, hok⟩
    simp [Clone, hrep, hok]
  · rw [hok] at hcf
    cases hcf

/-- Witness for C8: cloning the successful concrete client build returns a
context with the same parameters. -/
theorem clone_replays_witness :
    ∃ r1, Clone (build (some "/home/u/cert.pem") (some "/home/u/key.pem")
        (some "/etc/grid-security/certificates") none opts0 env0 fs0 libAll true)
        env0 fs0 libAll true = some r1
      ∧ r1.parm = (build (some "/home/u/cert.pem") (some "/home/u/key.pem")
          (some "/etc/grid-security/certificates") none opts0 env0 fs0 libAll true).parm
      ∧ r1.ctx = true :=
  (clone_replays (some "/home/u/cert.pem") (some "/home/u/key.pem")
      (some "/etc/grid-security/certificates") none opts0 env0 fs0 libAll true
      rfl (by decide)).2

end XrdTlsModel
